import Mathlib

/-!
Shallow embedding of the screw.nvim collaboration server
(src/screw_server.py): the relational store (projects, notes, replies),
the note and reply repositories, and the aggregation layer that shapes
query results.  Machine time is abstracted as a `Nat` tick supplied by the
caller wherever the source calls the clock; freshly generated UUIDs are
supplied as explicit parameters wherever the source calls the generator.
The relational schema follows the persisted schema of the design document:
`projects(id, name, path)`, `notes(id, project_id, project_name, file_path,
line_number, author, user_id, timestamp, comment, description, cwe, state,
severity, source, import-metadata, created_at, updated_at)`, `replies(id,
parent_id, author, user_id, timestamp, comment)`, with columns the server
never writes left nullable and `source`, `created_at`, `updated_at`
carrying their declared defaults.
-/

namespace Screw

/-- Timestamp value as it appears in a query result: either the internal
native datetime representation handed back by the database driver, or its
textual ISO-8601 rendering produced by an explicit `isoformat()` call or by
the database's JSON construction.  The payload is an abstract tick count. -/
inductive TimeVal where
  | native (t : Nat)
  | iso (t : Nat)
deriving Repr, DecidableEq

/-- Whether a result timestamp is in the textual ISO-8601 form. -/
def TimeVal.isIso : TimeVal → Bool
  | TimeVal.iso _ => true
  | TimeVal.native _ => false

/-- The underlying tick of a result timestamp. -/
def TimeVal.payload : TimeVal → Nat
  | TimeVal.native t => t
  | TimeVal.iso t => t

/-- An opaque structured JSON payload (used for SARIF import metadata and
for the uninterpreted reply dictionaries echoed through request bodies). -/
structure JObj where
  kvs : List (String × String)
deriving Repr, DecidableEq

/-- Serialization of an opaque payload, standing for `json.dumps`. -/
def JObj.dumps (j : JObj) : String :=
  String.intercalate "," (j.kvs.map (fun kv => kv.1 ++ ":" ++ kv.2))

/-- A row of the `projects` relation. -/
structure ProjectRow where
  id : Nat
  name : String
  path : Option String
deriving Repr, DecidableEq

/-- A row of the `notes` relation. -/
structure NoteRow where
  id : String
  project_id : Option Nat
  project_name : Option String
  file_path : String
  line_number : Int
  author : String
  user_id : Option String
  timestamp : Nat
  comment : String
  description : Option String
  cwe : Option String
  state : String
  severity : Option String
  source : String
  (import_metadata : Option String)
  created_at : Nat
  updated_at : Nat
deriving Repr, DecidableEq

/-- A row of the `replies` relation. -/
structure ReplyRow where
  id : String
  parent_id : String
  author : String
  user_id : Option String
  timestamp : Nat
  comment : String
deriving Repr, DecidableEq

/-- The persistent store. `nextProjectId` models the serial generator behind
`projects.id`. -/
structure DB where
  projects : List ProjectRow
  notes : List NoteRow
  replies : List ReplyRow
  nextProjectId : Nat
deriving Repr, DecidableEq

/-- A store with no rows. -/
def emptyDB : DB := { projects := [], notes := [], replies := [], nextProjectId := 1 }

/-- The parsed `ScrewNote` request model, after pydantic validation and
defaulting. -/
structure ScrewNote where
  id : Option String
  file_path : String
  line_number : Int
  author : String
  timestamp : Option Nat
  comment : String
  description : Option String
  cwe : Option String
  state : String
  severity : Option String
  source : String
  (import_metadata : Option JObj)
  project_name : String
  user_id : String
  replies : Option (List JObj)
deriving Repr, DecidableEq

/-- A raw `ScrewNote` request body: `none` in an optional-with-default field
means the key was absent from the JSON object. -/
structure RawScrewNote where
  id : Option String
  file_path : String
  line_number : Int
  author : String
  timestamp : Option Nat
  comment : String
  description : Option String
  cwe : Option String
  state : Option String
  severity : Option String
  source : Option String
  (import_metadata : Option JObj)
  project_name : String
  user_id : String
  replies : Option (Option (List JObj))
deriving Repr, DecidableEq

/-- Pydantic parsing of a note body: `state` defaults to `"todo"`, `source`
defaults to `"native"`, `replies` defaults to the empty list. -/
def ScrewNote.ofRaw (r : RawScrewNote) : ScrewNote :=
  { id := r.id, file_path := r.file_path, line_number := r.line_number,
    author := r.author, timestamp := r.timestamp, comment := r.comment,
    description := r.description, cwe := r.cwe,
    state := r.state.getD "todo",
    severity := r.severity, import_metadata := r.import_metadata,
    source := r.source.getD "native",
    project_name := r.project_name, user_id := r.user_id,
    replies := r.replies.getD (some []) }

/-- The parsed `ScrewReply` request model. -/
structure ScrewReply where
  id : Option String
  parent_id : String
  author : String
  timestamp : Option Nat
  comment : String
  user_id : String
deriving Repr, DecidableEq

/-- One raw note dictionary from the bulk-replace request body; `none` means
the key is absent (`dict.get` default applies). -/
structure RawNote where
  id : Option String
  file_path : String
  line_number : Int
  author : String
  user_id : Option String
  timestamp : Option Nat
  comment : String
  description : Option String
  cwe : Option String
  state : Option String
deriving Repr, DecidableEq

/-- A reply object as shaped by the SQL `json_build_object` aggregation.
`user_id` is `none` for the queries whose aggregation omits that key. -/
structure ReplyOut where
  id : String
  parent_id : String
  author : String
  user_id : Option String
  timestamp : TimeVal
  comment : String
deriving Repr, DecidableEq

/-- A note as shaped for a query response: all columns of the row plus the
embedded `replies` array. -/
structure NoteOut where
  id : String
  project_id : Option Nat
  project_name : Option String
  file_path : String
  line_number : Int
  author : String
  user_id : Option String
  timestamp : TimeVal
  comment : String
  description : Option String
  cwe : Option String
  state : String
  severity : Option String
  source : String
  (import_metadata : Option String)
  created_at : TimeVal
  updated_at : TimeVal
  replies : List ReplyOut
deriving Repr, DecidableEq

/-- The reply array aggregated for one note by the
`LEFT JOIN replies ... json_agg(json_build_object(...)) FILTER ... COALESCE`
pattern: the replies whose `parent_id` matches, in relation order, each
timestamp rendered textually by the JSON construction; an empty aggregate
collapses to the empty array, never to null. -/
def repliesOut (db : DB) (nid : String) (withUser : Bool) : List ReplyOut :=
  (db.replies.filter (fun r => r.parent_id == nid)).map (fun r =>
    { id := r.id, parent_id := r.parent_id, author := r.author,
      user_id := if withUser then r.user_id else none,
      timestamp := TimeVal.iso r.timestamp, comment := r.comment })

/-- A note row passed through unchanged (`dict(note)`), every timestamp still
in the driver's native representation. -/
def noteOutRaw (db : DB) (withUser : Bool) (n : NoteRow) : NoteOut :=
  { id := n.id, project_id := n.project_id, project_name := n.project_name,
    file_path := n.file_path, line_number := n.line_number, author := n.author,
    user_id := n.user_id, timestamp := TimeVal.native n.timestamp,
    comment := n.comment, description := n.description, cwe := n.cwe,
    state := n.state, severity := n.severity,
    source := n.source, import_metadata := n.import_metadata,
    created_at := TimeVal.native n.created_at,
    updated_at := TimeVal.native n.updated_at,
    replies := repliesOut db n.id withUser }

/-- Ordering relation of `ORDER BY n.timestamp DESC`. -/
def tsDescR (a b : NoteRow) : Prop := b.timestamp ≤ a.timestamp

instance : DecidableRel tsDescR :=
  fun a b => inferInstanceAs (Decidable (b.timestamp ≤ a.timestamp))

instance : IsTotal NoteRow tsDescR :=
  ⟨fun a b => Nat.le_total b.timestamp a.timestamp⟩

instance : IsTrans NoteRow tsDescR :=
  ⟨fun _ _ _ h1 h2 => Nat.le_trans h2 h1⟩

/-- Ordering relation of `ORDER BY n.line_number`. -/
def lineAscR (a b : NoteRow) : Prop := a.line_number ≤ b.line_number

instance : DecidableRel lineAscR :=
  fun a b => inferInstanceAs (Decidable (a.line_number ≤ b.line_number))

/-- Ordering relation of `ORDER BY n.created_at`. -/
def createdAscR (a b : NoteRow) : Prop := a.created_at ≤ b.created_at

instance : DecidableRel createdAscR :=
  fun a b => inferInstanceAs (Decidable (a.created_at ≤ b.created_at))

/-- The `JOIN projects p ON n.project_id = p.id` condition together with the
`WHERE p.name = %s` filter: a note row joins the named project when its
foreign key equals the id of some project row bearing that name.  A null
foreign key joins nothing. -/
def joinsProject (db : DB) (pname : String) (n : NoteRow) : Bool :=
  db.projects.any (fun p => n.project_id == some p.id && p.name == pname)

/-- The note rows of `GET /api/notes/{project_name}` before ordering. -/
def projectRows (db : DB) (pname : String) : List NoteRow :=
  db.notes.filter (fun n => joinsProject db pname n)

/-- Result shaping of `get_project_notes`: `p.name` overrides `project_name`,
the `timestamp` and `updated_at` values are converted with `isoformat()`,
`created_at` is not converted, and the reply aggregation omits `user_id`. -/
def noteOutProject (db : DB) (pname : String) (n : NoteRow) : NoteOut :=
  { noteOutRaw db false n with
    project_name := some pname,
    timestamp := TimeVal.iso n.timestamp,
    updated_at := TimeVal.iso n.updated_at }

/-- `get_project_notes` (GET /api/notes/{project_name}): join to the project
by foreign key, group replies, order by `timestamp` descending, convert
`timestamp` and `updated_at` to ISO strings. -/
def get_project_notes (db : DB) (pname : String) : List NoteOut :=
  (List.insertionSort tsDescR (projectRows db pname)).map (noteOutProject db pname)

/-- The note rows of the file-scoped query: filtered by the `project_name`
column, not by the foreign key. -/
def fileRows (db : DB) (pname path : String) : List NoteRow :=
  db.notes.filter (fun n => n.project_name == some pname && n.file_path == path)

/-- `get_file_notes` (GET /api/notes/{project_name}/file): filter by
`project_name` and `file_path` columns, order by line number, return the raw
row dictionaries with no timestamp conversion; the reply aggregation
includes `user_id`. -/
def get_file_notes (db : DB) (pname path : String) : List NoteOut :=
  (List.insertionSort lineAscR (fileRows db pname path)).map (noteOutRaw db true)

/-- The note rows of the line-scoped query. -/
def lineRows (db : DB) (pname path : String) (line : Int) : List NoteRow :=
  db.notes.filter (fun n =>
    n.project_name == some pname && n.file_path == path && n.line_number == line)

/-- `get_line_notes` (GET /api/notes/{project_name}/line): filter by
`project_name`, `file_path` and `line_number` columns, order by `created_at`
ascending, return the raw row dictionaries with no timestamp conversion. -/
def get_line_notes (db : DB) (pname path : String) (line : Int) : List NoteOut :=
  (List.insertionSort createdAscR (lineRows db pname path line)).map (noteOutRaw db true)

/-- `get_note_by_id` (GET /api/notes/note/{note_id}): one row by primary key
or Not-Found; `timestamp`, `updated_at` and `created_at` are all converted to
ISO strings; the reply aggregation omits `user_id`. -/
def get_note_by_id (db : DB) (nid : String) : Except String NoteOut :=
  match db.notes.find? (fun n => n.id == nid) with
  | none => Except.error "Note not found"
  | some n => Except.ok
      { noteOutRaw db false n with
        timestamp := TimeVal.iso n.timestamp,
        updated_at := TimeVal.iso n.updated_at,
        created_at := TimeVal.iso n.created_at }

/-- `create_note` (POST /api/notes): look up the project by `(name, "/")`,
lazily inserting it; insert the note row listing `project_id` (but not
`project_name`, `user_id` or `created_at` — the latter takes its column
default, the clock tick `now`), with `timestamp` and `updated_at` set to the
clock and the optional metadata serialized; echo the request body back with
the generated id filled in. -/
def create_note (db : DB) (note : ScrewNote) (now : Nat) (freshNoteId : String) :
    DB × ScrewNote :=
  let found := db.projects.find? (fun p => p.name == note.project_name && p.path == some "/")
  let pid := match found with
    | some p => p.id
    | none => db.nextProjectId
  let projects1 := match found with
    | some _ => db.projects
    | none => db.projects ++ [{ id := db.nextProjectId, name := note.project_name, path := some "/" }]
  let nextId1 := match found with
    | some _ => db.nextProjectId
    | none => db.nextProjectId + 1
  let row : NoteRow :=
    { id := freshNoteId, project_id := some pid, project_name := none,
      file_path := note.file_path, line_number := note.line_number,
      author := note.author, user_id := none, timestamp := now,
      comment := note.comment, description := note.description, cwe := note.cwe,
      state := note.state, severity := note.severity,
      source := note.source, import_metadata := note.import_metadata.map JObj.dumps,
      created_at := now, updated_at := now }
  ({ projects := projects1, notes := db.notes ++ [row], replies := db.replies,
     nextProjectId := nextId1 },
   { note with id := some freshNoteId })

/-- The row transformation of the `UPDATE notes SET ...` statement: exactly
the nine mutable fields are overwritten from the request body and
`updated_at` is refreshed to the clock; every other column is untouched. -/
def applyUpdate (n : NoteRow) (note : ScrewNote) (now : Nat) : NoteRow :=
  { n with
    file_path := note.file_path, line_number := note.line_number,
    author := note.author, comment := note.comment,
    description := note.description, cwe := note.cwe, state := note.state,
    severity := note.severity, source := note.source, updated_at := now }

/-- `update_note` (PUT /api/notes/{note_id}): run the UPDATE over the rows
whose id matches; if the row count is zero signal Not-Found, otherwise echo
the request body back with the path id substituted. -/
def update_note (db : DB) (nid : String) (note : ScrewNote) (now : Nat) :
    DB × Except String ScrewNote :=
  let notes1 := db.notes.map (fun n => if n.id == nid then applyUpdate n note now else n)
  let db1 : DB := { db with notes := notes1 }
  if (db.notes.filter (fun n => n.id == nid)).isEmpty then
    (db1, Except.error "Note not found")
  else
    (db1, Except.ok { note with id := some nid })

/-- `create_reply` (POST /api/notes/{parent_id}/replies): check the parent
note exists (Not-Found otherwise), fill in the reply id and timestamp when
omitted, insert the reply row, echo the filled body back. -/
def create_reply (db : DB) (parent_id : String) (reply : ScrewReply) (now : Nat)
    (freshReplyId : String) : DB × Except String ScrewReply :=
  if db.notes.any (fun n => n.id == parent_id) then
    let rid := reply.id.getD freshReplyId
    let rts := reply.timestamp.getD now
    let row : ReplyRow :=
      { id := rid, parent_id := parent_id, author := reply.author,
        user_id := some reply.user_id, timestamp := rts, comment := reply.comment }
    ({ db with replies := db.replies ++ [row] },
     Except.ok { reply with id := some rid, timestamp := some rts })
  else
    (db, Except.error "Parent note not found")

/-- The note row built for one bulk-replace input dictionary: the insert
lists `id, project_name, file_path, line_number, author, user_id, timestamp,
comment, description, cwe, state` — and not `project_id`, which is left
null; `severity` and the metadata stay null, `source`, `created_at` and
`updated_at` take their column defaults. -/
def rowOfRaw (pname : String) (now : Nat) (freshId : String) (r : RawNote) : NoteRow :=
  { id := r.id.getD freshId, project_id := none, project_name := some pname,
    file_path := r.file_path, line_number := r.line_number, author := r.author,
    user_id := some (r.user_id.getD r.author), timestamp := r.timestamp.getD now,
    comment := r.comment, description := r.description, cwe := r.cwe,
    state := r.state.getD "todo", severity := none,
    source := "native", import_metadata := none,
    created_at := now, updated_at := now }

/-- The rows inserted by the bulk-replace loop, the generator indexed from
`i` onwards. -/
def insertedRows (pname : String) (now : Nat) (fresh : Nat → String) :
    Nat → List RawNote → List NoteRow
  | _, [] => []
  | i, r :: rs => rowOfRaw pname now (fresh i) r :: insertedRows pname now fresh (i + 1) rs

/-- `replace_all_notes` (PUT /api/notes/{project_name}/replace): delete the
rows whose `project_name` column equals the path parameter, insert the
project row if no project of that name exists, then insert the supplied
notes; respond with the input count. -/
def replace_all_notes (db : DB) (pname : String) (raws : List RawNote) (now : Nat)
    (fresh : Nat → String) : DB × Nat :=
  let kept := db.notes.filter (fun n => !(n.project_name == some pname))
  let exists1 := db.projects.any (fun p => p.name == pname)
  let projects1 := if exists1 then db.projects
    else db.projects ++ [{ id := db.nextProjectId, name := pname, path := none }]
  let nextId1 := if exists1 then db.nextProjectId else db.nextProjectId + 1
  ({ projects := projects1, notes := kept ++ insertedRows pname now fresh 0 raws,
     replies := db.replies, nextProjectId := nextId1 },
   raws.length)

end Screw

namespace Screw

/-- A one-note bulk-replace payload used as a concrete input. -/
def bulkRaw : RawNote :=
  { id := some "n1", file_path := "a.py", line_number := 1, author := "alice",
    user_id := none, timestamp := some 5, comment := "c",
    description := none, cwe := none, state := none }

/-- The store after bulk-replacing project `p` of the empty store with the
single payload `bulkRaw` at tick 7. -/
def bulkDb : DB := (replace_all_notes emptyDB "p" [bulkRaw] 7 (fun _ => "g0")).1

/-- Claim C1: round trip of bulk replace through project listing.  Evidence
against it: bulk-replacing project `p` of the empty store with one input
note reports count 1, yet the subsequent project listing returns no notes —
the bulk insert leaves the `project_id` foreign key null while the listing
joins `notes` to `projects` on that key, so the round trip loses every
supplied note. -/
theorem c1_replace_then_list_loses_notes :
    (replace_all_notes emptyDB "p" [bulkRaw] 7 (fun _ => "g0")).2 = 1 ∧
    ([bulkRaw] : List RawNote).length = 1 ∧
    get_project_notes bulkDb "p" = [] := by
  refine ⟨rfl, rfl, by decide⟩

/-- Claim C2: every created note references exactly one existing project by
the foreign key.  Evidence against it: the note row inserted by bulk replace
carries a null `project_id` even though the project row for `p` exists, so
it references no project row at all. -/
theorem c2_bulk_note_has_no_project_fk :
    bulkDb.notes.map (fun n => n.project_id) = [none] ∧
    bulkDb.projects.map (fun p => p.name) = ["p"] := by
  refine ⟨by decide, by decide⟩

/-- The concrete note body of the demo scenario, with every optional field
absent. -/
def demoRaw : RawScrewNote :=
  { id := none, file_path := "a.py", line_number := 10, author := "alice",
    timestamp := none, comment := "check this", description := none,
    cwe := none, state := none, severity := none, source := none,
    project_name := "demo", user_id := "alice", replies := none,
    import_metadata := none }

/-- Store and response after creating the demo note in the empty store at
tick 3 with generated id `fresh-1`. -/
def demoCreate : DB × ScrewNote := create_note emptyDB (ScrewNote.ofRaw demoRaw) 3 "fresh-1"

/-- Claim C3: the demo create-then-line-query scenario.  The create response
does carry the fresh non-empty id with `state` defaulted to `todo` and
`source` defaulted to `native`, but the subsequent line-scoped query returns
no notes at all instead of exactly one — the single-note insert leaves the
`project_name` column null while the line query filters on it. -/
theorem c3_create_then_line_query_returns_nothing :
    demoCreate.2.id = some "fresh-1" ∧ "fresh-1" ≠ "" ∧
    demoCreate.2.state = "todo" ∧ demoCreate.2.source = "native" ∧
    get_line_notes demoCreate.1 "demo" "a.py" 10 = [] := by
  refine ⟨rfl, by decide, rfl, rfl, by decide⟩

/-- Claim C4, counterexample: the line-scoped query hands back a note whose
`timestamp` field is still in the internal native representation, not an
ISO-8601 string. -/
theorem c4_line_query_native_timestamp :
    ((get_line_notes bulkDb "p" "a.py" 1).all (fun o => o.timestamp.isIso)) = false := by
  decide

/-- Every aggregated reply timestamp is textual, being built by the JSON
construction inside the query. -/
theorem repliesOut_iso (db : DB) (nid : String) (b : Bool) :
    ∀ r ∈ repliesOut db nid b, r.timestamp.isIso = true := by
  intro r hr
  rcases List.mem_map.mp hr with ⟨s, _, rfl⟩
  rfl

/-- Claim C4, amended: `getById` returns `timestamp`, `updated_at` and
`created_at` as ISO strings; `listByProject` returns `timestamp` and
`updated_at` as ISO strings but `created_at` in the internal native
representation; `listByFile` and `listByLine` return all three note
timestamp fields in the internal native representation; aggregated reply
timestamps are textual in all four queries. -/
theorem c4_timestamp_normalization_by_endpoint (db : DB) (pname path : String)
    (line : Int) (nid : String) :
    (∀ o ∈ get_project_notes db pname,
      o.timestamp.isIso = true ∧ o.updated_at.isIso = true ∧
      o.created_at.isIso = false ∧ ∀ r ∈ o.replies, r.timestamp.isIso = true) ∧
    (∀ o ∈ get_file_notes db pname path,
      o.timestamp.isIso = false ∧ o.updated_at.isIso = false ∧
      o.created_at.isIso = false ∧ ∀ r ∈ o.replies, r.timestamp.isIso = true) ∧
    (∀ o ∈ get_line_notes db pname path line,
      o.timestamp.isIso = false ∧ o.updated_at.isIso = false ∧
      o.created_at.isIso = false ∧ ∀ r ∈ o.replies, r.timestamp.isIso = true) ∧
    (∀ o, get_note_by_id db nid = Except.ok o →
      o.timestamp.isIso = true ∧ o.updated_at.isIso = true ∧
      o.created_at.isIso = true ∧ ∀ r ∈ o.replies, r.timestamp.isIso = true) := by
  refine ⟨?_, ?_, ?_, ?_⟩
  · intro o ho
    rcases List.mem_map.mp ho with ⟨n, _, rfl⟩
    exact ⟨rfl, rfl, rfl, repliesOut_iso db n.id false⟩
  · intro o ho
    rcases List.mem_map.mp ho with ⟨n, _, rfl⟩
    exact ⟨rfl, rfl, rfl, repliesOut_iso db n.id true⟩
  · intro o ho
    rcases List.mem_map.mp ho with ⟨n, _, rfl⟩
    exact ⟨rfl, rfl, rfl, repliesOut_iso db n.id true⟩
  · intro o h
    unfold get_note_by_id at h
    cases hf : db.notes.find? (fun n => n.id == nid) with
    | none => rw [hf] at h; exact absurd h (by simp)
    | some n =>
      rw [hf] at h
      simp only [Except.ok.injEq] at h
      subst h
      exact ⟨rfl, rfl, rfl, repliesOut_iso db n.id false⟩

/-- The single note returned by the line-scoped query of `bulkDb`. -/
def outLineW : NoteOut := noteOutRaw bulkDb true (rowOfRaw "p" 7 "g0" bulkRaw)

/-- Witness for the amended C4 theorem at a concrete store: `outLineW` is in
the line-scoped result and carries native `timestamp` and `updated_at`. -/
theorem c4_timestamp_normalization_by_endpoint_witness :
    outLineW ∈ get_line_notes bulkDb "p" "a.py" 1 ∧
    outLineW.timestamp.isIso = false ∧ outLineW.updated_at.isIso = false := by
  have h := (c4_timestamp_normalization_by_endpoint bulkDb "p" "a.py" 1 "z").2.2.1
    outLineW (by decide)
  exact ⟨by decide, h.1, h.2.1⟩

/-- Whatever the row count check decides, the UPDATE statement has run: the
resulting store maps the matching rows through `applyUpdate`. -/
theorem update_note_state (db : DB) (nid : String) (note : ScrewNote) (now : Nat) :
    (update_note db nid note now).1 =
      { db with notes := db.notes.map (fun n => if n.id == nid then applyUpdate n note now else n) } := by
  unfold update_note
  split <;> rfl

/-- Claim C5: updating a nonexistent identifier yields Not-Found and changes
no stored note; updating an existing note overwrites exactly the nine
mutable fields from the request, refreshes `updated_at` to the clock (hence
strictly forward whenever the clock is past the stored value), and leaves
the identifier, the creation timestamps and every other column unchanged;
unrelated rows are untouched. -/
theorem update_note_contract (db : DB) (nid : String) (note : ScrewNote) (now : Nat) :
    ((∀ n ∈ db.notes, n.id ≠ nid) →
      (update_note db nid note now).2 = Except.error "Note not found" ∧
      (update_note db nid note now).1 = db) ∧
    (∀ n ∈ db.notes, n.id = nid →
      (update_note db nid note now).2 = Except.ok { note with id := some nid } ∧
      applyUpdate n note now ∈ (update_note db nid note now).1.notes ∧
      (applyUpdate n note now).id = n.id ∧
      (applyUpdate n note now).created_at = n.created_at ∧
      (applyUpdate n note now).timestamp = n.timestamp ∧
      (applyUpdate n note now).project_id = n.project_id ∧
      (applyUpdate n note now).project_name = n.project_name ∧
      (applyUpdate n note now).user_id = n.user_id ∧
      ((applyUpdate n note now).import_metadata = n.import_metadata) ∧
      (applyUpdate n note now).file_path = note.file_path ∧
      (applyUpdate n note now).line_number = note.line_number ∧
      (applyUpdate n note now).author = note.author ∧
      (applyUpdate n note now).comment = note.comment ∧
      (applyUpdate n note now).description = note.description ∧
      (applyUpdate n note now).cwe = note.cwe ∧
      (applyUpdate n note now).state = note.state ∧
      (applyUpdate n note now).severity = note.severity ∧
      (applyUpdate n note now).source = note.source ∧
      (applyUpdate n note now).updated_at = now ∧
      (n.updated_at < now → n.updated_at < (applyUpdate n note now).updated_at)) ∧
    (∀ n ∈ db.notes, n.id ≠ nid → n ∈ (update_note db nid note now).1.notes) := by
  refine ⟨?_, ?_, ?_⟩
  · intro h
    have hfil : db.notes.filter (fun n => n.id == nid) = [] := by
      rw [List.filter_eq_nil_iff]
      intro a ha
      simp [h a ha]
    have hmap : db.notes.map
        (fun n => if n.id == nid then applyUpdate n note now else n) = db.notes := by
      conv_rhs => rw [← List.map_id db.notes]
      apply List.map_congr_left
      intro a ha
      simp [h a ha]
    constructor
    · simp [update_note, hfil]
    · rw [update_note_state, hmap]
  · intro n hn hid
    have hmem : n ∈ db.notes.filter (fun m => m.id == nid) :=
      List.mem_filter.mpr ⟨hn, by simp [hid]⟩
    have hne : (db.notes.filter (fun m => m.id == nid)).isEmpty = false := by
      cases hfe : db.notes.filter (fun m => m.id == nid) with
      | nil => rw [hfe] at hmem; exact absurd hmem (List.not_mem_nil n)
      | cons a l => rfl
    refine ⟨by simp [update_note, hne], ?_, rfl, rfl, rfl, rfl, rfl, rfl, rfl, rfl,
      rfl, rfl, rfl, rfl, rfl, rfl, rfl, rfl, rfl, fun hlt => hlt⟩
    rw [update_note_state]
    have hmm := List.mem_map_of_mem
      (fun m => if m.id == nid then applyUpdate m note now else m) hn
    simpa [hid] using hmm
  · intro n hn hne
    rw [update_note_state]
    have hmm := List.mem_map_of_mem
      (fun m => if m.id == nid then applyUpdate m note now else m) hn
    simpa [hne] using hmm

/-- A concrete stored note with id `n1`. -/
def noteRowW : NoteRow :=
  { id := "n1", project_id := some 1, project_name := none, file_path := "a.py",
    line_number := 1, author := "alice", user_id := none, timestamp := 2,
    comment := "c", description := none, cwe := none, state := "todo",
    severity := none, source := "native", import_metadata := none,
    created_at := 2, updated_at := 2 }

/-- A concrete store holding exactly the note `noteRowW` under project `p`. -/
def dbW : DB :=
  { projects := [{ id := 1, name := "p", path := some "/" }],
    notes := [noteRowW], replies := [], nextProjectId := 2 }

/-- A concrete parsed update body. -/
def noteBodyW : ScrewNote :=
  ScrewNote.ofRaw
    { id := none, file_path := "b.py", line_number := 4, author := "bob",
      timestamp := some 8, comment := "d", description := none, cwe := none,
      state := none, severity := none, source := none, project_name := "p",
      user_id := "bob", replies := none, import_metadata := none }

/-- Witness for the update contract at a concrete store: the stored note
matches the path id, the response echoes the body with the path id, and the
update timestamp moves strictly forward. -/
theorem update_note_contract_witness :
    noteRowW ∈ dbW.notes ∧ noteRowW.id = "n1" ∧ noteRowW.updated_at < 9 ∧
    (update_note dbW "n1" noteBodyW 9).2 = Except.ok { noteBodyW with id := some "n1" } ∧
    applyUpdate noteRowW noteBodyW 9 ∈ (update_note dbW "n1" noteBodyW 9).1.notes ∧
    noteRowW.updated_at < (applyUpdate noteRowW noteBodyW 9).updated_at := by
  have h := (update_note_contract dbW "n1" noteBodyW 9).2.1 noteRowW (by decide) rfl
  refine ⟨by decide, rfl, by decide, h.1, h.2.1, ?_⟩
  exact h.2.2.2.2.2.2.2.2.2.2.2.2.2.2.2.2.2.2.2 (by decide)

/-- Claim C6: appending a reply to a nonexistent parent yields Not-Found and
inserts nothing; appending to an existing parent inserts exactly the reply
row with the identifier and timestamp defaulted when omitted, touches no
other relation, and echoes the filled body. -/
theorem create_reply_contract (db : DB) (pid : String) (reply : ScrewReply)
    (now : Nat) (fresh : String) :
    ((∀ n ∈ db.notes, n.id ≠ pid) →
      (create_reply db pid reply now fresh).1 = db ∧
      (create_reply db pid reply now fresh).2 = Except.error "Parent note not found") ∧
    (∀ n ∈ db.notes, n.id = pid →
      (create_reply db pid reply now fresh).1.replies =
        db.replies ++
          [{ id := reply.id.getD fresh, parent_id := pid, author := reply.author,
             user_id := some reply.user_id, timestamp := reply.timestamp.getD now,
             comment := reply.comment }] ∧
      (create_reply db pid reply now fresh).1.notes = db.notes ∧
      (create_reply db pid reply now fresh).1.projects = db.projects ∧
      (create_reply db pid reply now fresh).2 =
        Except.ok { reply with
          id := some (reply.id.getD fresh),
          timestamp := some (reply.timestamp.getD now) }) := by
  constructor
  · intro h
    have hany : db.notes.any (fun n => n.id == pid) = false := by
      rw [List.any_eq_false]
      intro a ha
      simp [h a ha]
    constructor
    · simp [create_reply, hany]
    · simp [create_reply, hany]
  · intro n hn hid
    have hany : db.notes.any (fun m => m.id == pid) = true :=
      List.any_eq_true.mpr ⟨n, hn, by simp [hid]⟩
    refine ⟨?_, ?_, ?_, ?_⟩ <;> simp [create_reply, hany]

/-- A concrete reply body with identifier and timestamp omitted. -/
def replyBodyW : ScrewReply :=
  { id := none, parent_id := "n1", author := "bob", timestamp := none,
    comment := "agreed", user_id := "bob" }

/-- Witness for the reply contract at a concrete store with parent `n1`. -/
theorem create_reply_contract_witness :
    noteRowW ∈ dbW.notes ∧ noteRowW.id = "n1" ∧
    (create_reply dbW "n1" replyBodyW 5 "r1").2 =
      Except.ok { replyBodyW with id := some "r1", timestamp := some 5 } ∧
    (create_reply dbW "n1" replyBodyW 5 "r1").1.replies =
      [{ id := "r1", parent_id := "n1", author := "bob", user_id := some "bob",
         timestamp := 5, comment := "agreed" }] := by
  have h := (create_reply_contract dbW "n1" replyBodyW 5 "r1").2 noteRowW (by decide) rfl
  exact ⟨by decide, rfl, h.2.2.2, h.1⟩

/-- The bulk-insert loop materializes the i-th input dictionary with the
identifier generated at loop offset `j + i`. -/
theorem insertedRows_mem (pname : String) (now : Nat) (fresh : Nat → String) :
    ∀ (raws : List RawNote) (j i : Nat) (h : i < raws.length),
      rowOfRaw pname now (fresh (j + i)) (raws.get ⟨i, h⟩) ∈
        insertedRows pname now fresh j raws := by
  intro raws
  induction raws with
  | nil =>
    intro j i h
    exact absurd h (by simp)
  | cons r rs ih =>
    intro j i h
    cases i with
    | zero =>
      rw [Nat.add_zero]
      exact List.mem_cons_self _ _
    | succ k =>
      have hk : k < rs.length := Nat.lt_of_succ_lt_succ h
      have hmem := ih (j + 1) k hk
      have hadd : j + 1 + k = j + (k + 1) := by omega
      rw [← hadd]
      exact List.mem_cons_of_mem _ hmem

/-- Claim C7: for every input dictionary of a bulk replace, the stored row
takes `id`, `timestamp` and `user_id` from the input when present and
otherwise defaults them — `id` to the freshly generated value, `user_id` to
the input's author, `timestamp` to the clock — and `state` to `todo` when
absent; the remaining supplied fields are stored verbatim. -/
theorem replace_all_field_sourcing (db : DB) (pname : String) (raws : List RawNote)
    (now : Nat) (fresh : Nat → String) :
    ∀ i, ∀ h : i < raws.length,
      rowOfRaw pname now (fresh i) (raws.get ⟨i, h⟩) ∈
        (replace_all_notes db pname raws now fresh).1.notes ∧
      (rowOfRaw pname now (fresh i) (raws.get ⟨i, h⟩)).id =
        (raws.get ⟨i, h⟩).id.getD (fresh i) ∧
      (rowOfRaw pname now (fresh i) (raws.get ⟨i, h⟩)).timestamp =
        (raws.get ⟨i, h⟩).timestamp.getD now ∧
      (rowOfRaw pname now (fresh i) (raws.get ⟨i, h⟩)).user_id =
        some ((raws.get ⟨i, h⟩).user_id.getD (raws.get ⟨i, h⟩).author) ∧
      (rowOfRaw pname now (fresh i) (raws.get ⟨i, h⟩)).state =
        (raws.get ⟨i, h⟩).state.getD "todo" ∧
      (rowOfRaw pname now (fresh i) (raws.get ⟨i, h⟩)).project_name = some pname ∧
      (rowOfRaw pname now (fresh i) (raws.get ⟨i, h⟩)).file_path =
        (raws.get ⟨i, h⟩).file_path ∧
      (rowOfRaw pname now (fresh i) (raws.get ⟨i, h⟩)).line_number =
        (raws.get ⟨i, h⟩).line_number ∧
      (rowOfRaw pname now (fresh i) (raws.get ⟨i, h⟩)).author =
        (raws.get ⟨i, h⟩).author ∧
      (rowOfRaw pname now (fresh i) (raws.get ⟨i, h⟩)).comment =
        (raws.get ⟨i, h⟩).comment ∧
      (rowOfRaw pname now (fresh i) (raws.get ⟨i, h⟩)).description =
        (raws.get ⟨i, h⟩).description ∧
      (rowOfRaw pname now (fresh i) (raws.get ⟨i, h⟩)).cwe = (raws.get ⟨i, h⟩).cwe := by
  intro i h
  have hm := insertedRows_mem pname now fresh raws 0 i h
  rw [Nat.zero_add] at hm
  refine ⟨?_, rfl, rfl, rfl, rfl, rfl, rfl, rfl, rfl, rfl, rfl, rfl⟩
  simp only [replace_all_notes]
  exact List.mem_append_right _ hm

/-- Witness for the bulk-replace field sourcing at a concrete one-note
payload: the supplied id and timestamp are kept, the omitted `user_id` and
`state` default to the author and to `todo`. -/
theorem replace_all_field_sourcing_witness :
    0 < ([bulkRaw] : List RawNote).length ∧
    rowOfRaw "q" 4 "f0" bulkRaw ∈
      (replace_all_notes emptyDB "q" [bulkRaw] 4 (fun _ => "f0")).1.notes ∧
    (rowOfRaw "q" 4 "f0" bulkRaw).id = "n1" ∧
    (rowOfRaw "q" 4 "f0" bulkRaw).timestamp = 5 ∧
    (rowOfRaw "q" 4 "f0" bulkRaw).user_id = some "alice" ∧
    (rowOfRaw "q" 4 "f0" bulkRaw).state = "todo" := by
  have h := replace_all_field_sourcing emptyDB "q" [bulkRaw] 4 (fun _ => "f0") 0 (by decide)
  exact ⟨by decide, h.1, h.2.1, h.2.2.1, h.2.2.2.1, h.2.2.2.2.1⟩

/-- Claim C8: the project listing is a permutation of the shaped note rows
joined to the named project, it is ordered by the note timestamp (the
creation-time column the repository writes at insert) descending, and each
returned note embeds exactly its aggregated replies. -/
theorem listByProject_contract (db : DB) (pname : String) :
    (get_project_notes db pname).Perm
      ((projectRows db pname).map (noteOutProject db pname)) ∧
    (get_project_notes db pname).Pairwise
      (fun a b => b.timestamp.payload ≤ a.timestamp.payload) ∧
    (∀ o ∈ get_project_notes db pname, ∃ n ∈ projectRows db pname,
      o.id = n.id ∧ o.replies = repliesOut db n.id false) := by
  refine ⟨?_, ?_, ?_⟩
  · exact (List.perm_insertionSort tsDescR (projectRows db pname)).map _
  · have hs := List.sorted_insertionSort tsDescR (projectRows db pname)
    exact List.pairwise_map.mpr hs
  · intro o ho
    rcases List.mem_map.mp ho with ⟨n, hn, rfl⟩
    have hn' : n ∈ projectRows db pname :=
      ((List.perm_insertionSort tsDescR (projectRows db pname)).mem_iff).mp hn
    exact ⟨n, hn', rfl, rfl⟩

/-- The note row materialized by the demo create. -/
def demoRow : NoteRow :=
  { id := "fresh-1", project_id := some 1, project_name := none,
    file_path := "a.py", line_number := 10, author := "alice", user_id := none,
    timestamp := 3, comment := "check this", description := none, cwe := none,
    state := "todo", severity := none, source := "native",
    created_at := 3, updated_at := 3, import_metadata := none }

/-- The shaped form of the demo note in the project listing. -/
def outW : NoteOut := noteOutProject demoCreate.1 "demo" demoRow

/-- Witness for the project-listing contract at the store holding the demo
note. -/
theorem listByProject_contract_witness :
    outW ∈ get_project_notes demoCreate.1 "demo" ∧
    (∃ n ∈ projectRows demoCreate.1 "demo",
      outW.id = n.id ∧ outW.replies = repliesOut demoCreate.1 n.id false) := by
  exact ⟨by decide, (listByProject_contract demoCreate.1 "demo").2.2 outW (by decide)⟩

/-- A note with no stored replies aggregates to the empty array. -/
theorem repliesOut_eq_nil (db : DB) (nid : String) (b : Bool)
    (h : ∀ r ∈ db.replies, r.parent_id ≠ nid) : repliesOut db nid b = [] := by
  unfold repliesOut
  rw [List.filter_eq_nil_iff.mpr (fun r hr => by simp [h r hr])]
  rfl

/-- Claim C9: in every note-returning query, a note with zero stored replies
comes back with an empty replies array — the aggregation coalesces an empty
aggregate to the empty array rather than a null or absent field. -/
theorem empty_replies_empty_array (db : DB) (pname path : String) (line : Int)
    (nid : String) :
    (∀ o ∈ get_project_notes db pname,
      (∀ r ∈ db.replies, r.parent_id ≠ o.id) → o.replies = []) ∧
    (∀ o ∈ get_file_notes db pname path,
      (∀ r ∈ db.replies, r.parent_id ≠ o.id) → o.replies = []) ∧
    (∀ o ∈ get_line_notes db pname path line,
      (∀ r ∈ db.replies, r.parent_id ≠ o.id) → o.replies = []) ∧
    (∀ o, get_note_by_id db nid = Except.ok o →
      (∀ r ∈ db.replies, r.parent_id ≠ o.id) → o.replies = []) := by
  refine ⟨?_, ?_, ?_, ?_⟩
  · intro o ho h
    rcases List.mem_map.mp ho with ⟨n, _, rfl⟩
    exact repliesOut_eq_nil db n.id false h
  · intro o ho h
    rcases List.mem_map.mp ho with ⟨n, _, rfl⟩
    exact repliesOut_eq_nil db n.id true h
  · intro o ho h
    rcases List.mem_map.mp ho with ⟨n, _, rfl⟩
    exact repliesOut_eq_nil db n.id true h
  · intro o hok h
    unfold get_note_by_id at hok
    cases hf : db.notes.find? (fun n => n.id == nid) with
    | none => rw [hf] at hok; exact absurd hok (by simp)
    | some n =>
      rw [hf] at hok
      simp only [Except.ok.injEq] at hok
      subst hok
      exact repliesOut_eq_nil db n.id false h

/-- Witness for the empty-replies shape at the store holding the demo note,
which has no replies. -/
theorem empty_replies_empty_array_witness :
    outW ∈ get_project_notes demoCreate.1 "demo" ∧ outW.replies = [] := by
  refine ⟨by decide, ?_⟩
  exact (empty_replies_empty_array demoCreate.1 "demo" "a.py" 10 "z").1 outW
    (by decide) (by decide)

/-- Claim C10: a successful update responds with the client-supplied body,
only its identifier replaced by the path identifier — the fields the UPDATE
does not persist (timestamp, user_id, project_name, the import metadata,
replies) are echoed exactly as supplied rather than read back, while the
store itself received the refreshed `updated_at`, which the response shape
does not carry. -/
theorem update_response_echo (db : DB) (nid : String) (note : ScrewNote) (now : Nat)
    (resp : ScrewNote) :
    (update_note db nid note now).2 = Except.ok resp →
    (resp = { note with id := some nid } ∧
     resp.id = some nid ∧
     resp.timestamp = note.timestamp ∧
     resp.user_id = note.user_id ∧
     resp.project_name = note.project_name ∧
     (resp.import_metadata = note.import_metadata) ∧
     resp.replies = note.replies ∧
     ∀ n ∈ db.notes, n.id = nid → (applyUpdate n note now).updated_at = now ∧
       applyUpdate n note now ∈ (update_note db nid note now).1.notes) := by
  intro h
  have hr : resp = { note with id := some nid } := by
    cases hc : (db.notes.filter (fun n => n.id == nid)).isEmpty with
    | true => simp [update_note, hc] at h
    | false =>
      simp only [update_note, hc, Bool.false_eq_true, if_false, Except.ok.injEq] at h
      exact h.symm
  subst hr
  refine ⟨rfl, rfl, rfl, rfl, rfl, rfl, rfl, ?_⟩
  intro n hn hid
  refine ⟨rfl, ?_⟩
  rw [update_note_state]
  have hmm := List.mem_map_of_mem
    (fun m => if m.id == nid then applyUpdate m note now else m) hn
  simpa [hid] using hmm

/-- Witness for the update-response echo at a concrete store: the response
is the body with the path id, and echoes the body's timestamp and replies. -/
theorem update_response_echo_witness :
    (update_note dbW "n1" noteBodyW 9).2 = Except.ok { noteBodyW with id := some "n1" } ∧
    ({ noteBodyW with id := some "n1" } : ScrewNote).timestamp = noteBodyW.timestamp ∧
    ({ noteBodyW with id := some "n1" } : ScrewNote).replies = noteBodyW.replies := by
  have h := update_response_echo dbW "n1" noteBodyW 9
    { noteBodyW with id := some "n1" } (by rfl)
  exact ⟨by rfl, h.2.2.1, h.2.2.2.2.2.2.1⟩

end Screw
